import Mathlib

/-!
Shallow embedding of the reconciliation core of the Order_Processing_Flow
repository: the order comparison pipeline (Order_Flow/compare_orders.py),
the legacy-code resolution of the report builder
(Order_Flow/create_excel_report.py), and the two stock size-mismatch
detectors (Shopify_Odoo_Stock_Cross_Ref/get_odoo_stock_current.py and
Shopify_Odoo_Stock_Cross_Ref/import_shopify_inventory.py).
-/

/-- A raw cell value as it sits in the staged SQLite tables before
`pd.to_numeric(..., errors="coerce")` is applied: a number, a string, or NULL. -/
inductive RawVal where
  | vnum (q : ℚ)
  | vstr (s : String)
  | vnull
deriving DecidableEq, Repr

/-- Numeric value of a list of decimal digit characters. -/
def natOfDigits (cs : List Char) : Nat :=
  cs.foldl (fun acc c => acc * 10 + (c.toNat - 48)) 0

/-- Model of the numeric-string parsing done by `pd.to_numeric`: an optional
sign, an integer part, and an optional fractional part; anything else fails
to parse. -/
def parseDec (s : String) : Option ℚ :=
  let cs := s.toList
  let sb : ℚ × List Char :=
    match cs with
    | '-' :: rest => (-1, rest)
    | '+' :: rest => (1, rest)
    | _ => (1, cs)
  let ip := sb.2.takeWhile (fun c => c.isDigit)
  let rest := sb.2.dropWhile (fun c => c.isDigit)
  match rest with
  | [] => if ip.isEmpty then none else some (sb.1 * (natOfDigits ip : ℚ))
  | '.' :: fp =>
      if ip.isEmpty || fp.isEmpty || !(fp.all (fun c => c.isDigit)) then none
      else some (sb.1 * ((natOfDigits ip : ℚ) + (natOfDigits fp : ℚ) / ((10 : ℚ) ^ fp.length)))
  | _ => none

/-- `pd.to_numeric(cell, errors="coerce")` on one cell (compare_orders.py
lines 126-129): numbers pass through, numeric strings parse, and every
non-numeric or unparsable value coerces to NULL (NaN) instead of raising. -/
def toNumeric : RawVal → Option ℚ
  | RawVal.vnum q => some q
  | RawVal.vstr s => parseDec s
  | RawVal.vnull => none

/-- NaN-propagating equality of two nullable numbers: the pandas comparison
`a == b` is False whenever either side is NaN. -/
def numEq (a b : Option ℚ) : Bool :=
  match a, b with
  | some x, some y => decide (x = y)
  | _, _ => false

/-- The test `abs(x - y) < n / d` on rationals, written by integer
cross-multiplication (the denominators are positive) so that the kernel can
evaluate it; `absSubLtFrac_iff` proves it equal to the textbook form. -/
def absSubLtFrac (x y : ℚ) (n d : ℤ) : Bool :=
  decide (((x.num * (y.den : ℤ) - y.num * (x.den : ℤ)).natAbs : ℤ) * d
    < n * ((x.den : ℤ) * (y.den : ℤ)))

/-- The test `abs(x - y) <= n / d` on rationals, by integer
cross-multiplication; `absSubLeFrac_iff` proves it equal to the textbook
form. -/
def absSubLeFrac (x y : ℚ) (n d : ℤ) : Bool :=
  decide (((x.num * (y.den : ℤ) - y.num * (x.den : ℤ)).natAbs : ℤ) * d
    ≤ n * ((x.den : ℤ) * (y.den : ℤ)))

/-- NaN-propagating tolerance test `abs(a - b) < n / d`. -/
def numNear (a b : Option ℚ) (n d : ℤ) : Bool :=
  match a, b with
  | some x, some y => absSubLtFrac x y n d
  | _, _ => false

/-- The `quantity_match` column of compare_orders.py (lines 152-155):
`(a == b) | (a.isna() & b.isna())`. -/
def quantity_match (a b : Option ℚ) : Bool :=
  numEq a b || (a.isNone && b.isNone)

/-- The `price_match` column of compare_orders.py (lines 158-161):
`(abs(a - b) < 0.01) | (a.isna() & b.isna())`. -/
def price_match (a b : Option ℚ) : Bool :=
  numNear a b 1 100 || (a.isNone && b.isNone)

/-- `get_sync_status` of compare_orders.py (lines 164-174): the first failing
check in the fixed order wins. -/
def get_sync_status (in_shopify in_odoo qmatch pmatch : Bool) : String :=
  if !in_shopify then "Missing in Shopify"
  else if !in_odoo then "Missing in Odoo"
  else if !qmatch then "Quantity mismatch"
  else if !pmatch then "Price mismatch"
  else "Synced"

/-- One `shopify_orders` line as loaded by `load_shopify_orders`; only the
fields the comparison reads. -/
structure ShopRow where
  name : Option String
  sku : Option String
  quantity : RawVal
  price : RawVal
deriving DecidableEq, Repr

/-- One `odoo_orders` line as loaded by `load_odoo_orders`; only the fields
the comparison reads. -/
structure OdooRow where
  orderNumber : Option String
  sku : Option String
  quantity : RawVal
  price : RawVal
deriving DecidableEq, Repr

/-- ASCII lower-casing of one character, the case fold `str.lower` performs
on the key columns. -/
def lowerChar (c : Char) : Char :=
  if 'A' ≤ c ∧ c ≤ 'Z' then Char.ofNat (c.toNat + 32) else c

/-- ASCII model of Python `str.lower()`. -/
def lowerStr (s : String) : String :=
  String.mk (s.toList.map lowerChar)

/-- `.str.lower()` on a nullable column cell: NaN stays NaN. -/
def lowerKey (s : Option String) : Option String := s.map lowerStr

/-- The storefront join key of compare_orders.py (lines 133-134):
lower-cased order number and lower-cased sku.  No whitespace trimming and
no prefix stripping is performed. -/
def shopKey (l : ShopRow) : Option String × Option String :=
  (lowerKey l.name, lowerKey l.sku)

/-- The ERP join key of compare_orders.py (lines 135-136). -/
def odooKey (r : OdooRow) : Option String × Option String :=
  (lowerKey r.orderNumber, lowerKey r.sku)

/-- Model of `pd.merge(left, right, how="outer", left_on=…, right_on=…)`
(compare_orders.py lines 139-145): every left row is paired with every right
row of equal key; a left row with no key match keeps one row with the right
side absent; right rows with no key match are appended with the left side
absent.  Pandas matches NaN keys with NaN keys, which the `Option`-valued
key equality reproduces.  `joinBlock` is the slice of the merge produced by
one left row: its matches, or a single half-empty row when it has none. -/
def joinBlock {L R K : Type} [DecidableEq K] (kl : L → K) (kr : R → K)
    (rs : List R) (l : L) : List (Option L × Option R) :=
  if (rs.filter (fun r => decide (kr r = kl l))).isEmpty then
    [(some l, (none : Option R))]
  else (rs.filter (fun r => decide (kr r = kl l))).map (fun r => (some l, some r))

/-- The outer merge itself: every left row's block, then the unmatched
right rows. -/
def outerJoin {L R K : Type} [DecidableEq K] (kl : L → K) (kr : R → K)
    (ls : List L) (rs : List R) : List (Option L × Option R) :=
  ls.flatMap (joinBlock kl kr rs)
  ++ (rs.filter (fun r => ls.all (fun l => !decide (kl l = kr r)))).map
      (fun r => ((none : Option L), some r))

/-- The join key carried by a merged row: the left side's key when the left
side is present, otherwise the right side's. -/
def rowKeyOf {L R K : Type} (kl : L → K) (kr : R → K)
    (p : Option L × Option R) : Option K :=
  match p.1 with
  | some l => some (kl l)
  | none => p.2.map kr

/-- One row of the `order_comparison` output (compare_orders.py
lines 147-176): both sides' data plus the derived comparison columns. -/
structure CompRow where
  shopify_order_number : Option String
  shopify_sku : Option String
  shopify_quantity : Option ℚ
  shopify_price : Option ℚ
  odoo_order_number : Option String
  odoo_sku : Option String
  odoo_quantity : Option ℚ
  odoo_price : Option ℚ
  in_shopify : Bool
  in_odoo : Bool
  quantity_match : Bool
  price_match : Bool
  sync_status : String
deriving DecidableEq, Repr

/-- Builds one merged row of compare_orders.py: the presence flags come from
the nullness of the two order-number cells (lines 148-149), the match flags
from the coerced numeric columns, and the status from `get_sync_status`. -/
def mkCompRow (ml : Option ShopRow) (mr : Option OdooRow) : CompRow where
  shopify_order_number := ml.bind ShopRow.name
  shopify_sku := ml.bind ShopRow.sku
  shopify_quantity := ml.bind (fun l => toNumeric l.quantity)
  shopify_price := ml.bind (fun l => toNumeric l.price)
  odoo_order_number := mr.bind OdooRow.orderNumber
  odoo_sku := mr.bind OdooRow.sku
  odoo_quantity := mr.bind (fun r => toNumeric r.quantity)
  odoo_price := mr.bind (fun r => toNumeric r.price)
  in_shopify := (ml.bind ShopRow.name).isSome
  in_odoo := (mr.bind OdooRow.orderNumber).isSome
  quantity_match := quantity_match (ml.bind (fun l => toNumeric l.quantity))
    (mr.bind (fun r => toNumeric r.quantity))
  price_match := price_match (ml.bind (fun l => toNumeric l.price))
    (mr.bind (fun r => toNumeric r.price))
  sync_status := get_sync_status (ml.bind ShopRow.name).isSome
    (mr.bind OdooRow.orderNumber).isSome
    (quantity_match (ml.bind (fun l => toNumeric l.quantity))
      (mr.bind (fun r => toNumeric r.quantity)))
    (price_match (ml.bind (fun l => toNumeric l.price))
      (mr.bind (fun r => toNumeric r.price)))

/-- `compare_orders` of compare_orders.py (lines 118-188): coerce the numeric
columns, outer-join on the lower-cased keys, and annotate every merged row. -/
def compare_orders (shop : List ShopRow) (odoo : List OdooRow) : List CompRow :=
  (outerJoin shopKey odooKey shop odoo).map (fun p => mkCompRow p.1 p.2)

/-- Legacy resolution performed by `create_shopify_orders_basesku`
(create_excel_report.py lines 95-117): `CASE WHEN B.base_sku IS NULL THEN
A."Lineitem sku" ELSE base_sku || '-01G' END` over `LEFT OUTER JOIN
legacy_lookup B ON A."Lineitem sku" = B.legacy_sku`.  The map is the
`legacy_lookup` table as an association list from `legacy_sku` to
`base_sku`. -/
def resolveLegacy (m : List (String × String)) (raw : String) : String :=
  match m.lookup raw with
  | some base => base ++ "-01G"
  | none => raw

/-- The `excel_report` pairing of a storefront line (after legacy resolution
of its sku) with an ERP line (create_excel_report.py lines 135-152):
`A.Name = B.Odoo_Name AND A.SKU = B.Product_Default_Code`. -/
def excelReportMatch (m : List (String × String))
    (shopName shopSku odooName odooSku : String) : Bool :=
  decide (shopName = odooName) && decide (resolveLegacy m shopSku = odooSku)

/-- Splits a character list at every dash, the model of Python
`code.split("-")`. -/
def splitDashAux : List Char → List Char → List (List Char)
  | [], acc => [acc.reverse]
  | c :: cs, acc =>
      if c = '-' then acc.reverse :: splitDashAux cs []
      else splitDashAux cs (c :: acc)

/-- Python `code.split("-")`. -/
def splitDash (s : String) : List String :=
  (splitDashAux s.toList []).map String.mk

/-- Python `"-".join(parts)`. -/
def joinDash : List String → String
  | [] => ""
  | [s] => s
  | s :: t :: rest => s ++ "-" ++ joinDash (t :: rest)

/-- `get_plant_prefix` of get_odoo_stock_current.py (lines 49-51):
`"-".join(code.split("-")[:-1])`. -/
def plantBaseOf (code : String) : String :=
  joinDash (splitDash code).dropLast

/-- `get_suffix` of get_odoo_stock_current.py (lines 53-58): the last
dash-separated component, or `""` when the code has no dash. -/
def sizeSuffixOf (code : String) : String :=
  let parts := splitDash code
  if parts.length > 1 then parts.getLastD "" else ""

/-- One `odoostock` row; only the fields the mismatch queries read.  The
`plant_prefix` and `size_suffix` columns are derived from `default_code`
by `get_plant_prefix` and `get_suffix` when the table is built. -/
structure OdooStockRec where
  default_code : String
  quantity : ℚ
deriving DecidableEq, Repr

/-- One `shopifyproducts` row; `option1` and `inventory_quantity` are
nullable. -/
structure ShopProd where
  sku : String
  option1 : Option String
  inventory_quantity : Option ℚ
deriving DecidableEq, Repr

/-- One `shopify_inventory` row used by the reciprocal sku_mismatches
query; `on_hand` is nullable. -/
structure ShopInvRec where
  sku : String
  on_hand : Option ℚ
deriving DecidableEq, Repr

/-- SQL `x > 0` on a nullable number: NULL compares to nothing. -/
def sqlPos (x : Option ℚ) : Bool :=
  match x with
  | some q => decide (0 < q)
  | none => false

/-- The join-and-WHERE condition of the reciprocal size-mismatch query of
import_shopify_inventory.py (lines 190-216): the two odoostock variants
share a plant prefix with differing size suffixes, each is inner-joined to
the `shopify_inventory` row of the identical sku, and
`o1.quantity > 0 AND o2.quantity = 0 AND si1.on_hand = 0 AND
si2.on_hand > 0`. -/
def skuMismatchCond (o1 o2 : OdooStockRec) (si1 si2 : ShopInvRec) : Bool :=
  decide (plantBaseOf o1.default_code = plantBaseOf o2.default_code)
    && !decide (sizeSuffixOf o1.default_code = sizeSuffixOf o2.default_code)
    && decide (o1.default_code = si1.sku)
    && decide (o2.default_code = si2.sku)
    && decide (0 < o1.quantity)
    && decide (o2.quantity = 0)
    && decide (si1.on_hand = some 0)
    && sqlPos si2.on_hand

/-- The reciprocal size-mismatch query of import_shopify_inventory.py
(lines 190-216): every quadruple of rows satisfying `skuMismatchCond`. -/
def sku_mismatches (ost : List OdooStockRec) (sinv : List ShopInvRec) :
    List (OdooStockRec × OdooStockRec × ShopInvRec × ShopInvRec) :=
  ost.flatMap (fun o1 => ost.flatMap (fun o2 =>
    sinv.flatMap (fun si1 => sinv.flatMap (fun si2 =>
      if skuMismatchCond o1 o2 si1 si2 then [(o1, o2, si1, si2)] else []))))

/-- One output row of the `potential_size_mismatches` common table
expression of get_odoo_stock_current.py (lines 169-174). -/
structure MismatchNote where
  odoo_sku : String
  odoo_size : String
  odoo_qty : ℚ
  correct_shopify_sku : String
  correct_size : Option String
  shopify_qty : Option ℚ
  mismatch_note : Option String
deriving DecidableEq, Repr

/-- The SQL `||` concatenation that builds the note text; it yields NULL
when `s2.option1` is NULL. -/
def sqlNoteText (suf : String) (opt1 : Option String) : Option String :=
  match opt1 with
  | some o => some ("Size mismatch: Odoo has " ++ suf ++ " but Shopify has "
      ++ o ++ " with matching quantity")
  | none => none

/-- The SELECT list of `potential_size_mismatches`: the annotation carries
both sides' quantities verbatim and a descriptive note; it never alters
either side's data. -/
def mkNote (o : OdooStockRec) (s2 : ShopProd) : MismatchNote where
  odoo_sku := o.default_code
  odoo_size := sizeSuffixOf o.default_code
  odoo_qty := o.quantity
  correct_shopify_sku := s2.sku
  correct_size := s2.option1
  shopify_qty := s2.inventory_quantity
  mismatch_note := sqlNoteText (sizeSuffixOf o.default_code) s2.option1

/-- SQL `x = 0 OR x IS NULL` on a nullable number. -/
def sqlZeroOrNull (x : Option ℚ) : Bool :=
  match x with
  | some q => decide (q = 0)
  | none => true

/-- The `s1` leg of `potential_size_mismatches`: `LEFT JOIN shopifyproducts
s1 ON o.default_code = s1.sku` filtered by `s1.inventory_quantity = 0 OR
s1.inventory_quantity IS NULL`.  True when the sku has no product row at
all (the LEFT JOIN leaves `s1` NULL), or some product row of the sku has a
zero or NULL quantity. -/
def ownQtyZeroOrNull (prods : List ShopProd) (code : String) : Bool :=
  let ms := prods.filter (fun s => decide (s.sku = code))
  ms.isEmpty || ms.any (fun s => sqlZeroOrNull s.inventory_quantity)

/-- SQLite `s2.sku LIKE pfx || '-%'`: LIKE is ASCII case-insensitive, so
the test is a case-folded prefix match on `pfx ++ "-"`. -/
def likeDashAny (pfx sku : String) : Bool :=
  List.isPrefixOf (lowerStr (pfx ++ "-")).toList (lowerStr sku).toList

/-- SQL `s2.inventory_quantity > 0 AND ABS(o.quantity -
s2.inventory_quantity) <= 5` on the nullable sibling quantity. -/
def sqlWithinFive (oq : ℚ) (sq : Option ℚ) : Bool :=
  match sq with
  | some q => decide (0 < q) && absSubLeFrac oq q 5 1
  | none => false

/-- The join-and-WHERE condition of the `potential_size_mismatches` common
table expression of get_odoo_stock_current.py (lines 169-174): the
odoostock row `o` has a non-empty plant prefix (the `plant_prefixes` join,
which keeps exactly the rows whose own prefix is non-empty), the
`shopifyproducts` sibling `s2` has a sku that LIKE-matches
`plant_prefix || '-%'` and differs from `o`'s own sku, `o.quantity > 0`,
`o`'s own Shopify quantity is zero or NULL, and the sibling's quantity is
positive within 5 units of `o.quantity`. -/
def proximityCond (prods : List ShopProd) (o : OdooStockRec)
    (s2 : ShopProd) : Bool :=
  !decide (plantBaseOf o.default_code = "")
    && likeDashAny (plantBaseOf o.default_code) s2.sku
    && !decide (s2.sku = o.default_code)
    && decide (0 < o.quantity)
    && ownQtyZeroOrNull prods o.default_code
    && sqlWithinFive o.quantity s2.inventory_quantity

/-- The `potential_size_mismatches` common table expression itself: a note
for every (o, s2) pair satisfying `proximityCond`; `SELECT DISTINCT`
dedupes the result. -/
def potential_size_mismatches (ost : List OdooStockRec)
    (prods : List ShopProd) : List MismatchNote :=
  (ost.flatMap (fun o =>
    prods.flatMap (fun s2 =>
      if proximityCond prods o s2 then [mkNote o s2] else []))).dedup

/-- Scenario A storefront line: order "#1001", sku "ABC", quantity 2,
price 10.00. -/
def shopA : ShopRow := ⟨some "#1001", some "ABC", RawVal.vnum 2, RawVal.vnum 10⟩

/-- Scenario A ERP line as the spec states it: order "1001" (no "#"),
sku "abc", quantity 2, price 10.00. -/
def odooScenA : OdooRow := ⟨some "1001", some "abc", RawVal.vnum 2, RawVal.vnum 10⟩

/-- Scenario A ERP line with the order number "#1001" matching the
storefront's up to case. -/
def odooScenA2 : OdooRow := ⟨some "#1001", some "abc", RawVal.vnum 2, RawVal.vnum 10⟩

/-- An ERP line whose Shopify order-number reference is null. -/
def odooNullOrd : OdooRow := ⟨none, some "sku1", RawVal.vnum 1, RawVal.vnum 5⟩

/-- `absSubLtFrac` agrees with the textbook statement `abs(x - y) < n / d`. -/
theorem absSubLtFrac_iff (x y : ℚ) (n d : ℤ) (hd : 0 < d) :
    absSubLtFrac x y n d = true ↔ |x - y| < (n : ℚ) / (d : ℚ) := by
  unfold absSubLtFrac
  rw [decide_eq_true_eq]
  have hxd : (0 : ℚ) < (x.den : ℚ) := by exact_mod_cast x.den_pos
  have hyd : (0 : ℚ) < (y.den : ℚ) := by exact_mod_cast y.den_pos
  have hB : (0 : ℚ) < (x.den : ℚ) * (y.den : ℚ) := mul_pos hxd hyd
  have hdq : (0 : ℚ) < (d : ℚ) := by exact_mod_cast hd
  have h1 : (x.num : ℚ) = x * (x.den : ℚ) := by
    have hx := Rat.num_div_den x
    rwa [div_eq_iff (ne_of_gt hxd)] at hx
  have h2 : (y.num : ℚ) = y * (y.den : ℚ) := by
    have hy := Rat.num_div_den y
    rwa [div_eq_iff (ne_of_gt hyd)] at hy
  have hxy : x - y
      = ((x.num * (y.den : ℤ) - y.num * (x.den : ℤ) : ℤ) : ℚ)
        / ((x.den : ℚ) * (y.den : ℚ)) := by
    rw [eq_div_iff (ne_of_gt hB)]
    push_cast
    linear_combination (-(y.den : ℚ)) * h1 + (x.den : ℚ) * h2
  rw [hxy, abs_div, abs_of_pos hB, div_lt_div_iff₀ hB hdq]
  rw [← Int.cast_abs, Int.abs_eq_natAbs]
  constructor
  · intro h
    exact_mod_cast h
  · intro h
    exact_mod_cast h

/-- `absSubLeFrac` agrees with the textbook statement `abs(x - y) <= n / d`. -/
theorem absSubLeFrac_iff (x y : ℚ) (n d : ℤ) (hd : 0 < d) :
    absSubLeFrac x y n d = true ↔ |x - y| ≤ (n : ℚ) / (d : ℚ) := by
  unfold absSubLeFrac
  rw [decide_eq_true_eq]
  have hxd : (0 : ℚ) < (x.den : ℚ) := by exact_mod_cast x.den_pos
  have hyd : (0 : ℚ) < (y.den : ℚ) := by exact_mod_cast y.den_pos
  have hB : (0 : ℚ) < (x.den : ℚ) * (y.den : ℚ) := mul_pos hxd hyd
  have hdq : (0 : ℚ) < (d : ℚ) := by exact_mod_cast hd
  have h1 : (x.num : ℚ) = x * (x.den : ℚ) := by
    have hx := Rat.num_div_den x
    rwa [div_eq_iff (ne_of_gt hxd)] at hx
  have h2 : (y.num : ℚ) = y * (y.den : ℚ) := by
    have hy := Rat.num_div_den y
    rwa [div_eq_iff (ne_of_gt hyd)] at hy
  have hxy : x - y
      = ((x.num * (y.den : ℤ) - y.num * (x.den : ℤ) : ℤ) : ℚ)
        / ((x.den : ℚ) * (y.den : ℚ)) := by
    rw [eq_div_iff (ne_of_gt hB)]
    push_cast
    linear_combination (-(y.den : ℚ)) * h1 + (x.den : ℚ) * h2
  rw [hxy, abs_div, abs_of_pos hB, div_le_div_iff₀ hB hdq]
  rw [← Int.cast_abs, Int.abs_eq_natAbs]
  constructor
  · intro h
    exact_mod_cast h
  · intro h
    exact_mod_cast h

/-- Membership in one left row's merge block. -/
theorem mem_joinBlock {L R K : Type} [DecidableEq K] (kl : L → K) (kr : R → K)
    (rs : List R) (l : L) (p : Option L × Option R) :
    p ∈ joinBlock kl kr rs l ↔
      ((∀ r ∈ rs, kr r ≠ kl l) ∧ p = (some l, none))
      ∨ (∃ r ∈ rs, kr r = kl l ∧ p = (some l, some r)) := by
  unfold joinBlock
  by_cases h : (rs.filter (fun r => decide (kr r = kl l))).isEmpty
  · rw [if_pos h]
    rw [List.isEmpty_iff, List.filter_eq_nil_iff] at h
    have hno : ∀ r ∈ rs, kr r ≠ kl l := by
      intro r hr
      have := h r hr
      simpa using this
    simp only [List.mem_singleton]
    constructor
    · intro hp
      exact Or.inl ⟨hno, hp⟩
    · rintro (⟨_, hp⟩ | ⟨r, hr, hk, _⟩)
      · exact hp
      · exact absurd hk (hno r hr)
  · rw [if_neg h]
    have hex : ∃ r ∈ rs, kr r = kl l := by
      have hne : rs.filter (fun r => decide (kr r = kl l)) ≠ [] := by
        intro hnil
        rw [hnil] at h
        simp at h
      obtain ⟨r, hr⟩ := List.exists_mem_of_ne_nil _ hne
      rw [List.mem_filter] at hr
      exact ⟨r, hr.1, by simpa using hr.2⟩
    constructor
    · intro hp
      rw [List.mem_map] at hp
      obtain ⟨r, hrf, rfl⟩ := hp
      rw [List.mem_filter] at hrf
      exact Or.inr ⟨r, hrf.1, by simpa using hrf.2, rfl⟩
    · rintro (⟨hall, rfl⟩ | ⟨r, hr, hk, rfl⟩)
      · obtain ⟨r, hr, hk⟩ := hex
        exact absurd hk (hall r hr)
      · rw [List.mem_map]
        exact ⟨r, List.mem_filter.mpr ⟨hr, by simpa using hk⟩, rfl⟩

/-- Membership in the outer merge: a row is in some left block, or is an
unmatched right row. -/
theorem mem_outerJoin {L R K : Type} [DecidableEq K] (kl : L → K) (kr : R → K)
    (ls : List L) (rs : List R) (p : Option L × Option R) :
    p ∈ outerJoin kl kr ls rs ↔
      (∃ l ∈ ls, p ∈ joinBlock kl kr rs l)
      ∨ (∃ r ∈ rs, (∀ l ∈ ls, kl l ≠ kr r) ∧ p = (none, some r)) := by
  unfold outerJoin
  rw [List.mem_append, List.mem_flatMap]
  apply or_congr Iff.rfl
  rw [List.mem_map]
  constructor
  · rintro ⟨r, hrf, rfl⟩
    rw [List.mem_filter] at hrf
    refine ⟨r, hrf.1, ?_, rfl⟩
    intro l hl
    have hall := hrf.2
    rw [List.all_eq_true] at hall
    simpa using hall l hl
  · rintro ⟨r, hr, hall, rfl⟩
    refine ⟨r, List.mem_filter.mpr ⟨hr, ?_⟩, rfl⟩
    rw [List.all_eq_true]
    intro l hl
    simpa using hall l hl

/-- Each left block contains a row whose left side is that row. -/
theorem joinBlock_fst {L R K : Type} [DecidableEq K] (kl : L → K) (kr : R → K)
    (rs : List R) (l : L) :
    ∃ p ∈ joinBlock kl kr rs l, p.1 = some l := by
  by_cases h : ∃ r ∈ rs, kr r = kl l
  · obtain ⟨r, hr, hk⟩ := h
    exact ⟨(some l, some r), (mem_joinBlock kl kr rs l _).mpr
      (Or.inr ⟨r, hr, hk, rfl⟩), rfl⟩
  · push_neg at h
    exact ⟨(some l, none), (mem_joinBlock kl kr rs l _).mpr
      (Or.inl ⟨h, rfl⟩), rfl⟩

/-- Every left input row appears in at least one merged row. -/
theorem outerJoin_left_total {L R K : Type} [DecidableEq K] (kl : L → K)
    (kr : R → K) (ls : List L) (rs : List R) (l : L) (hl : l ∈ ls) :
    ∃ p ∈ outerJoin kl kr ls rs, p.1 = some l := by
  obtain ⟨p, hp, h1⟩ := joinBlock_fst kl kr rs l
  exact ⟨p, (mem_outerJoin kl kr ls rs p).mpr (Or.inl ⟨l, hl, hp⟩), h1⟩

/-- Every key-equal pairing of a left and a right row appears in the merge. -/
theorem outerJoin_pair_mem {L R K : Type} [DecidableEq K] (kl : L → K)
    (kr : R → K) (ls : List L) (rs : List R) {l : L} {r : R}
    (hl : l ∈ ls) (hr : r ∈ rs) (hk : kr r = kl l) :
    (some l, some r) ∈ outerJoin kl kr ls rs := by
  apply (mem_outerJoin kl kr ls rs _).mpr
  refine Or.inl ⟨l, hl, ?_⟩
  rw [mem_joinBlock]
  exact Or.inr ⟨r, hr, hk, rfl⟩

/-- Every right input row appears in at least one merged row, and that row
carries the right row's key. -/
theorem outerJoin_right_total {L R K : Type} [DecidableEq K] (kl : L → K)
    (kr : R → K) (ls : List L) (rs : List R) (r : R) (hr : r ∈ rs) :
    ∃ p ∈ outerJoin kl kr ls rs, p.2 = some r
      ∧ rowKeyOf kl kr p = some (kr r) := by
  by_cases h : ∃ l ∈ ls, kl l = kr r
  · obtain ⟨l, hl, hk⟩ := h
    refine ⟨(some l, some r), outerJoin_pair_mem kl kr ls rs hl hr hk.symm,
      rfl, ?_⟩
    simp [rowKeyOf, hk]
  · push_neg at h
    refine ⟨(none, some r), ?_, rfl, by simp [rowKeyOf]⟩
    exact (mem_outerJoin kl kr ls rs _).mpr (Or.inr ⟨r, hr, h, rfl⟩)

/-- A merged row whose left side is present carries the left side's key. -/
theorem rowKeyOf_fst {L R K : Type} (kl : L → K) (kr : R → K)
    (p : Option L × Option R) (l : L) (h : p.1 = some l) :
    rowKeyOf kl kr p = some (kl l) := by
  rcases p with ⟨p1, p2⟩
  cases p1 with
  | none => simp at h
  | some a =>
      simp only [Option.some.injEq] at h
      subst h
      rfl

/-- A merged row whose right side is present either has no left side or a
left side with the same key. -/
theorem outerJoin_snd_inv {L R K : Type} [DecidableEq K] (kl : L → K)
    (kr : R → K) (ls : List L) (rs : List R) (p : Option L × Option R)
    (hp : p ∈ outerJoin kl kr ls rs) (r : R) (h2 : p.2 = some r) :
    p.1 = none ∨ ∃ l, p.1 = some l ∧ kr r = kl l := by
  rw [mem_outerJoin] at hp
  rcases hp with ⟨l, _, hb⟩ | ⟨r0, _, _, rfl⟩
  · rw [mem_joinBlock] at hb
    rcases hb with ⟨_, rfl⟩ | ⟨r0, _, hk, rfl⟩
    · simp at h2
    · right
      refine ⟨l, rfl, ?_⟩
      simp only [Option.some.injEq] at h2
      rw [← h2]
      exact hk
  · left
    rfl

/-- One block has at most one row more than the right side. -/
theorem joinBlock_length_le {L R K : Type} [DecidableEq K] (kl : L → K)
    (kr : R → K) (rs : List R) (l : L) :
    (joinBlock kl kr rs l).length ≤ rs.length + 1 := by
  unfold joinBlock
  by_cases h : (rs.filter (fun r => decide (kr r = kl l))).isEmpty
  · rw [if_pos h]
    simp
  · rw [if_neg h, List.length_map]
    exact le_trans (List.length_filter_le _ _) (Nat.le_succ _)

/-- The merge emits at most the cross product plus one half-empty row per
input row. -/
theorem outerJoin_length_le {L R K : Type} [DecidableEq K] (kl : L → K)
    (kr : R → K) (ls : List L) (rs : List R) :
    (outerJoin kl kr ls rs).length
      ≤ ls.length * rs.length + ls.length + rs.length := by
  unfold outerJoin
  rw [List.length_append, List.length_flatMap]
  have h1 : (List.map (List.length ∘ joinBlock kl kr rs) ls).sum
      ≤ ls.length * (rs.length + 1) := by
    have hall : ∀ x ∈ List.map (List.length ∘ joinBlock kl kr rs) ls,
        x ≤ rs.length + 1 := by
      intro x hx
      rw [List.mem_map] at hx
      obtain ⟨l, _, rfl⟩ := hx
      exact joinBlock_length_le kl kr rs l
    have := List.sum_le_card_nsmul
      (List.map (List.length ∘ joinBlock kl kr rs) ls) (rs.length + 1) hall
    simpa [List.length_map, smul_eq_mul] using this
  have h2 : ((rs.filter (fun r => ls.all (fun l => !decide (kl l = kr r)))).map
      (fun r => ((none : Option L), some r))).length ≤ rs.length := by
    rw [List.length_map]
    exact List.length_filter_le _ _
  calc (List.map (List.length ∘ joinBlock kl kr rs) ls).sum
        + ((rs.filter (fun r => ls.all (fun l => !decide (kl l = kr r)))).map
          (fun r => ((none : Option L), some r))).length
      ≤ ls.length * (rs.length + 1) + rs.length := Nat.add_le_add h1 h2
    _ = ls.length * rs.length + ls.length + rs.length := by ring

/-- The merge has at least one row per distinct left key. -/
theorem outerJoin_left_keys_le {L R K : Type} [DecidableEq K] (kl : L → K)
    (kr : R → K) (ls : List L) (rs : List R) :
    ((ls.map kl).dedup).length ≤ (outerJoin kl kr ls rs).length := by
  have hsub : ((ls.map kl).dedup.map (some : K → Option K))
      ⊆ (outerJoin kl kr ls rs).map (fun p => p.1.map kl) := by
    intro k hk
    rw [List.mem_map] at hk
    obtain ⟨k0, hk0, rfl⟩ := hk
    rw [List.mem_dedup, List.mem_map] at hk0
    obtain ⟨l, hl, rfl⟩ := hk0
    obtain ⟨p, hp, h1⟩ := outerJoin_left_total kl kr ls rs l hl
    rw [List.mem_map]
    refine ⟨p, hp, ?_⟩
    rw [h1]
    rfl
  have hnd : ((ls.map kl).dedup.map (some : K → Option K)).Nodup :=
    (List.nodup_dedup _).map (Option.some_injective K)
  have hle := (hnd.subperm hsub).length_le
  rw [List.length_map, List.length_map] at hle
  exact hle

/-- The merge has at least one row per distinct right key. -/
theorem outerJoin_right_keys_le {L R K : Type} [DecidableEq K] (kl : L → K)
    (kr : R → K) (ls : List L) (rs : List R) :
    ((rs.map kr).dedup).length ≤ (outerJoin kl kr ls rs).length := by
  have hsub : ((rs.map kr).dedup.map (some : K → Option K))
      ⊆ (outerJoin kl kr ls rs).map (rowKeyOf kl kr) := by
    intro k hk
    rw [List.mem_map] at hk
    obtain ⟨k0, hk0, rfl⟩ := hk
    rw [List.mem_dedup, List.mem_map] at hk0
    obtain ⟨r, hr, rfl⟩ := hk0
    obtain ⟨p, hp, _, hkey⟩ := outerJoin_right_total kl kr ls rs r hr
    rw [List.mem_map]
    exact ⟨p, hp, hkey⟩
  have hnd : ((rs.map kr).dedup.map (some : K → Option K)).Nodup :=
    (List.nodup_dedup _).map (Option.some_injective K)
  have hle := (hnd.subperm hsub).length_le
  rw [List.length_map, List.length_map] at hle
  exact hle

/-- C1: the sync classifier is total, every row getting exactly one of the
five terminal statuses, and the checks fire in strict priority order with
the first match winning: absence on the storefront beats absence on the
ERP, which beats a quantity mismatch, which beats a price mismatch;
`Synced` appears exactly when all four flags hold, so a row missing on the
ERP side with a simultaneous quantity mismatch classifies as
"Missing in Odoo". -/
theorem sync_status_total_and_priority (in_shopify in_odoo qmatch pmatch : Bool) :
    (get_sync_status in_shopify in_odoo qmatch pmatch ∈
      ["Missing in Shopify", "Missing in Odoo", "Quantity mismatch",
        "Price mismatch", "Synced"])
    ∧ (get_sync_status in_shopify in_odoo qmatch pmatch = "Missing in Shopify"
        ↔ in_shopify = false)
    ∧ (get_sync_status in_shopify in_odoo qmatch pmatch = "Missing in Odoo"
        ↔ in_shopify = true ∧ in_odoo = false)
    ∧ (get_sync_status in_shopify in_odoo qmatch pmatch = "Quantity mismatch"
        ↔ in_shopify = true ∧ in_odoo = true ∧ qmatch = false)
    ∧ (get_sync_status in_shopify in_odoo qmatch pmatch = "Price mismatch"
        ↔ in_shopify = true ∧ in_odoo = true ∧ qmatch = true ∧ pmatch = false)
    ∧ (get_sync_status in_shopify in_odoo qmatch pmatch = "Synced"
        ↔ in_shopify = true ∧ in_odoo = true ∧ qmatch = true ∧ pmatch = true) := by
  cases in_shopify <;> cases in_odoo <;> cases qmatch <;> cases pmatch <;> decide

/-- C2: `quantity_match` holds exactly when both quantities are present and
numerically equal or both are absent; `price_match` holds exactly when both
prices are absent or both are present within 0.01; a one-sided null makes
both flags false; and numeric coercion sends an unparsable cell to null
instead of failing. -/
theorem null_safe_field_comparison (a b : Option ℚ) :
    (quantity_match a b = true ↔
      (∃ x, a = some x ∧ b = some x) ∨ (a = none ∧ b = none))
    ∧ (price_match a b = true ↔
      (a = none ∧ b = none) ∨ (∃ x y, a = some x ∧ b = some y ∧ |x - y| < 1 / 100))
    ∧ (∀ x : ℚ, x ≠ 0 →
        quantity_match (some x) none = false ∧ quantity_match none (some x) = false
        ∧ price_match (some x) none = false ∧ price_match none (some x) = false)
    ∧ (∀ s : String, parseDec s = none → toNumeric (RawVal.vstr s) = none) := by
  refine ⟨?_, ?_, ?_, ?_⟩
  · cases a with
    | none => cases b <;> simp [quantity_match, numEq]
    | some x =>
        cases b with
        | none => simp [quantity_match, numEq]
        | some y =>
            simp only [quantity_match, numEq, Option.isNone_some, Bool.and_false,
              Bool.or_false, decide_eq_true_eq, Option.some.injEq]
            constructor
            · intro h
              exact Or.inl ⟨x, rfl, h.symm ▸ rfl⟩
            · rintro (⟨z, hx, hy⟩ | ⟨h, _⟩)
              · exact hx.trans hy.symm
              · exact absurd h (by simp)
  · cases a with
    | none => cases b <;> simp [price_match, numNear]
    | some x =>
        cases b with
        | none => simp [price_match, numNear]
        | some y =>
            simp only [price_match, numNear, Option.isNone_some, Bool.and_false,
              Bool.or_false, Option.some.injEq]
            rw [absSubLtFrac_iff x y 1 100 (by norm_num)]
            have hc : ((1 : ℤ) : ℚ) / ((100 : ℤ) : ℚ) = 1 / 100 := by norm_num
            rw [hc]
            constructor
            · intro h
              exact Or.inr ⟨x, y, rfl, rfl, h⟩
            · rintro (⟨h, _⟩ | ⟨u, v, hu, hv, h⟩)
              · exact absurd h (by simp)
              · rw [← Option.some.injEq] at hu hv
                rw [Option.some.injEq] at hu hv
                rw [← hu, ← hv] at h
                exact h
  · intro x _
    refine ⟨?_, ?_, ?_, ?_⟩ <;> simp [quantity_match, price_match, numEq, numNear]
  · intro s hs
    simp [toNumeric, hs]

/-- Witness for `null_safe_field_comparison` at concrete inputs: a
one-sided null quantity of 2 and a one-sided null price of 3 both fail to
match, and the unparsable cell "N/A" coerces to null. -/
theorem null_safe_field_comparison_witness :
    quantity_match (some 2) none = false ∧ price_match none (some 3) = false
    ∧ toNumeric (RawVal.vstr "N/A") = none := by
  refine ⟨?_, ?_, ?_⟩
  · exact ((null_safe_field_comparison (some 2) none).2.2.1 2 (by norm_num)).1
  · exact ((null_safe_field_comparison none (some 3)).2.2.1 3 (by norm_num)).2.2.2
  · exact (null_safe_field_comparison none none).2.2.2 "N/A" (by decide)

/-- C5: legacy resolution returns the mapped base code with the fixed
"-01G" suffix appended when the raw sku is a key of the legacy map, and
returns the raw sku unchanged otherwise; a missing mapping is the ordinary
fall-through, never an error. -/
theorem legacy_resolution_contract (m : List (String × String)) (raw : String) :
    (∀ base, m.lookup raw = some base → resolveLegacy m raw = base ++ "-01G")
    ∧ (m.lookup raw = none → resolveLegacy m raw = raw) := by
  constructor
  · intro base h
    simp [resolveLegacy, h]
  · intro h
    simp [resolveLegacy, h]

/-- Witness for `legacy_resolution_contract`: a mapped sku gains the suffix
and an unmapped sku passes through. -/
theorem legacy_resolution_contract_witness :
    resolveLegacy [("OLDCODE", "NEWCODE")] "OLDCODE" = "NEWCODE-01G"
    ∧ resolveLegacy [("OLDCODE", "NEWCODE")] "OTHER" = "OTHER" := by
  constructor
  · exact (legacy_resolution_contract [("OLDCODE", "NEWCODE")] "OLDCODE").1
      "NEWCODE" (by decide)
  · exact (legacy_resolution_contract [("OLDCODE", "NEWCODE")] "OTHER").2 (by decide)

/-- C9 counterexample: with the legacy map mapping "A" to "B" and "B-01G"
to "C", resolving "A" once yields "B-01G" but resolving the result again
yields "C-01G", so applying resolve to the result of resolve differs from
resolving once. -/
theorem legacy_resolution_double_resolve_differs :
    resolveLegacy [("A", "B"), ("B-01G", "C")] "A" = "B-01G"
    ∧ resolveLegacy [("A", "B"), ("B-01G", "C")]
        (resolveLegacy [("A", "B"), ("B-01G", "C")] "A") = "C-01G"
    ∧ ("C-01G" : String) ≠ "B-01G" := by decide

/-- C9 amended: resolution is deterministic; an already-current code (not a
key of the legacy map) resolves to itself unchanged; and resolving twice
equals resolving once whenever the first resolution's result is not itself
a key of the map.  The unconditional two-step identity fails when a mapped
result with the appended suffix reappears as a legacy key. -/
theorem legacy_resolution_idempotent_off_keys
    (m : List (String × String)) (raw : String) :
    (m.lookup raw = none → resolveLegacy m raw = raw)
    ∧ (m.lookup (resolveLegacy m raw) = none →
        resolveLegacy m (resolveLegacy m raw) = resolveLegacy m raw) := by
  have base : ∀ s, m.lookup s = none → resolveLegacy m s = s := by
    intro s h
    simp [resolveLegacy, h]
  exact ⟨base raw, base (resolveLegacy m raw)⟩

/-- Witness for `legacy_resolution_idempotent_off_keys`: an unmapped code
is unchanged, and a mapped code whose resolution leaves the key set
resolves the same once or twice. -/
theorem legacy_resolution_idempotent_off_keys_witness :
    resolveLegacy [("A", "B")] "Z" = "Z"
    ∧ resolveLegacy [("A", "B")] (resolveLegacy [("A", "B")] "A")
      = resolveLegacy [("A", "B")] "A" := by
  constructor
  · exact (legacy_resolution_idempotent_off_keys [("A", "B")] "Z").1 (by decide)
  · exact (legacy_resolution_idempotent_off_keys [("A", "B")] "A").2 (by decide)

/-- C3: the record matcher is a full outer join keyed on the normalized
(order number, item code) pair: every distinct key appearing on either side
is carried by at least one merged row, every input record appears in at
least one merged row (no silent drops), duplicate keys produce every
pairing combination, the row count is at least the number of distinct keys
on each side and at most the cross product plus the unmatched singles, and
`compare_orders` emits exactly one ComparisonRow per merged row. -/
theorem order_matcher_full_outer_join (shop : List ShopRow) (odoo : List OdooRow) :
    (∀ k, ((∃ l ∈ shop, shopKey l = k) ∨ (∃ r ∈ odoo, odooKey r = k)) →
      ∃ p ∈ outerJoin shopKey odooKey shop odoo,
        rowKeyOf shopKey odooKey p = some k)
    ∧ (∀ l ∈ shop, ∃ p ∈ outerJoin shopKey odooKey shop odoo, p.1 = some l)
    ∧ (∀ r ∈ odoo, ∃ p ∈ outerJoin shopKey odooKey shop odoo, p.2 = some r)
    ∧ (∀ l ∈ shop, ∀ r ∈ odoo, shopKey l = odooKey r →
        (some l, some r) ∈ outerJoin shopKey odooKey shop odoo)
    ∧ ((shop.map shopKey).dedup.length
        ≤ (outerJoin shopKey odooKey shop odoo).length)
    ∧ ((odoo.map odooKey).dedup.length
        ≤ (outerJoin shopKey odooKey shop odoo).length)
    ∧ ((outerJoin shopKey odooKey shop odoo).length
        ≤ shop.length * odoo.length + shop.length + odoo.length)
    ∧ ((compare_orders shop odoo).length
        = (outerJoin shopKey odooKey shop odoo).length) := by
  refine ⟨?_, ?_, ?_, ?_, ?_, ?_, ?_, ?_⟩
  · rintro k (⟨l, hl, rfl⟩ | ⟨r, hr, rfl⟩)
    · obtain ⟨p, hp, h1⟩ := outerJoin_left_total shopKey odooKey shop odoo l hl
      exact ⟨p, hp, rowKeyOf_fst shopKey odooKey p l h1⟩
    · obtain ⟨p, hp, _, hkey⟩ := outerJoin_right_total shopKey odooKey shop odoo r hr
      exact ⟨p, hp, hkey⟩
  · exact fun l hl => outerJoin_left_total shopKey odooKey shop odoo l hl
  · intro r hr
    obtain ⟨p, hp, h2, _⟩ := outerJoin_right_total shopKey odooKey shop odoo r hr
    exact ⟨p, hp, h2⟩
  · intro l hl r hr hk
    exact outerJoin_pair_mem shopKey odooKey shop odoo hl hr hk.symm
  · exact outerJoin_left_keys_le shopKey odooKey shop odoo
  · exact outerJoin_right_keys_le shopKey odooKey shop odoo
  · exact outerJoin_length_le shopKey odooKey shop odoo
  · simp [compare_orders]

/-- Witness for `order_matcher_full_outer_join`: the Scenario A storefront
line and the case-matching ERP line pair up in the merge of the two
singleton collections. -/
theorem order_matcher_full_outer_join_witness :
    (some shopA, some odooScenA2) ∈ outerJoin shopKey odooKey [shopA] [odooScenA2] := by
  have h := order_matcher_full_outer_join [shopA] [odooScenA2]
  exact h.2.2.2.1 shopA (by simp) odooScenA2 (by simp) (by decide)

/-- C4 counterexample: with the storefront order number "#1001" and the ERP
order number "1001" the lower-cased keys differ, so the two lines do not
merge into one row: the comparison emits two rows, "Missing in Odoo" for
the storefront line and "Missing in Shopify" for the ERP line, and no row
is "Synced". -/
theorem scenario_a_hash_vs_bare_not_matched :
    (compare_orders [shopA] [odooScenA]).map CompRow.sync_status
      = ["Missing in Odoo", "Missing in Shopify"] := by decide

/-- C4 amended: the join keys are case-folded only (no whitespace trimming
and no "#" stripping), so with the ERP order number "#1001" equal to the
storefront's up to case, the two lines merge into a single row whose
status is "Synced"; the sku match "ABC" vs "abc" is case-insensitive. -/
theorem scenario_a_case_fold_synced :
    (compare_orders [shopA] [odooScenA2]).map CompRow.sync_status
      = ["Synced"] := by decide

/-- C6 counterexample: with the legacy map sending "OLD" to "NEW", the
storefront sku "OLD-01" is not itself a key of the map, so it resolves to
"OLD-01" unchanged, which differs from the ERP sku "NEW-01G": the pair is
not matched. -/
theorem scenario_b_base_mapping_not_matched :
    resolveLegacy [("OLD", "NEW")] "OLD-01" = "OLD-01"
    ∧ excelReportMatch [("OLD", "NEW")] "SO1" "OLD-01" "SO1" "NEW-01G" = false := by
  decide

/-- C6 amended: resolution looks up the storefront's full raw sku in the
legacy map, so when the map sends the full sku "OLD-01" to "NEW", the
resolved key "NEW-01G" equals the ERP sku and the pair is matched. -/
theorem scenario_b_full_sku_mapping_matched :
    resolveLegacy [("OLD-01", "NEW")] "OLD-01" = "NEW-01G"
    ∧ excelReportMatch [("OLD-01", "NEW")] "SO1" "OLD-01" "SO1" "NEW-01G" = true := by
  decide

/-- C10 counterexample: an ERP input line whose order number is null is
marked as absent on the ERP side, but its row classifies as
"Missing in Shopify", not "Missing in Odoo": the storefront check fires
first and the merged row's storefront order number is necessarily null
too. -/
theorem erp_null_order_number_status :
    (compare_orders [] [odooNullOrd]).map CompRow.sync_status
      = ["Missing in Shopify"]
    ∧ (compare_orders [] [odooNullOrd]).map CompRow.in_odoo = [false] := by
  decide

/-- C10 amended: the presence flags derive solely from the nullness of each
side's order-number cell in the merged row; every storefront line with a
null order number yields a row marked absent on the storefront and
classified "Missing in Shopify"; an ERP line with a null order number is
likewise marked absent on the ERP side, but its row also classifies as
"Missing in Shopify" rather than "Missing in Odoo", because the storefront
check has priority and the matching storefront cell is necessarily null. -/
theorem presence_from_order_number_nullness (shop : List ShopRow)
    (odoo : List OdooRow) :
    (∀ row ∈ compare_orders shop odoo,
      row.in_shopify = row.shopify_order_number.isSome
      ∧ row.in_odoo = row.odoo_order_number.isSome)
    ∧ (∀ l ∈ shop, l.name = none →
        ∃ row ∈ compare_orders shop odoo,
          row.shopify_sku = l.sku ∧ row.in_shopify = false
          ∧ row.sync_status = "Missing in Shopify")
    ∧ (∀ r ∈ odoo, r.orderNumber = none →
        ∃ row ∈ compare_orders shop odoo,
          row.odoo_sku = r.sku ∧ row.in_odoo = false
          ∧ row.sync_status = "Missing in Shopify") := by
  refine ⟨?_, ?_, ?_⟩
  · intro row hrow
    rw [compare_orders, List.mem_map] at hrow
    obtain ⟨p, _, rfl⟩ := hrow
    exact ⟨rfl, rfl⟩
  · intro l hl hname
    obtain ⟨p, hp, h1⟩ := outerJoin_left_total shopKey odooKey shop odoo l hl
    refine ⟨mkCompRow p.1 p.2, ?_, ?_, ?_, ?_⟩
    · rw [compare_orders, List.mem_map]
      exact ⟨p, hp, rfl⟩
    · rw [h1]
      rfl
    · show (p.1.bind ShopRow.name).isSome = false
      rw [h1]
      show l.name.isSome = false
      rw [hname]
      rfl
    · show get_sync_status (p.1.bind ShopRow.name).isSome _ _ _ = _
      rw [h1]
      show get_sync_status l.name.isSome _ _ _ = _
      rw [hname]
      rfl
  · intro r hr hname
    obtain ⟨p, hp, h2, _⟩ := outerJoin_right_total shopKey odooKey shop odoo r hr
    have hleft : p.1.bind ShopRow.name = none := by
      rcases outerJoin_snd_inv shopKey odooKey shop odoo p hp r h2 with h0 | ⟨l, h1, hk⟩
      · rw [h0]
        rfl
      · rw [h1]
        show l.name = none
        have hfst := congrArg Prod.fst hk
        simp only [odooKey, shopKey, hname, lowerKey, Option.map_none'] at hfst
        exact Option.map_eq_none'.mp hfst.symm
    refine ⟨mkCompRow p.1 p.2, ?_, ?_, ?_, ?_⟩
    · rw [compare_orders, List.mem_map]
      exact ⟨p, hp, rfl⟩
    · rw [h2]
      rfl
    · show (p.2.bind OdooRow.orderNumber).isSome = false
      rw [h2]
      show r.orderNumber.isSome = false
      rw [hname]
      rfl
    · show get_sync_status (p.1.bind ShopRow.name).isSome _ _ _ = _
      rw [hleft]
      rfl

/-- Witness for `presence_from_order_number_nullness`: a storefront line
with a null order number yields a row absent on the storefront side with
status "Missing in Shopify". -/
theorem presence_from_order_number_nullness_witness :
    ∃ row ∈ compare_orders [⟨none, some "s", RawVal.vnull, RawVal.vnull⟩] [],
      row.shopify_sku = some "s" ∧ row.in_shopify = false
      ∧ row.sync_status = "Missing in Shopify" := by
  exact (presence_from_order_number_nullness
    [⟨none, some "s", RawVal.vnull, RawVal.vnull⟩] []).2.1
    ⟨none, some "s", RawVal.vnull, RawVal.vnull⟩ (by simp) rfl

/-- Membership in a conditional singleton list. -/
theorem mem_ite_singleton {α : Type} (c : Prop) [Decidable c] (x y : α) :
    (x ∈ if c then [y] else []) ↔ c ∧ x = y := by
  by_cases h : c <;> simp [h]

/-- `sqlPos` holds exactly on positive non-null values. -/
theorem sqlPos_iff (x : Option ℚ) :
    sqlPos x = true ↔ ∃ q, x = some q ∧ 0 < q := by
  cases x with
  | none => simp [sqlPos]
  | some q => simp [sqlPos]

/-- `sqlZeroOrNull` holds exactly on zero or null values. -/
theorem sqlZeroOrNull_iff (x : Option ℚ) :
    sqlZeroOrNull x = true ↔ x = some 0 ∨ x = none := by
  cases x with
  | none => simp [sqlZeroOrNull]
  | some q => simp [sqlZeroOrNull]

/-- The `s1` leg of the proximity heuristic, spelled in propositions. -/
theorem ownQtyZeroOrNull_iff (prods : List ShopProd) (code : String) :
    ownQtyZeroOrNull prods code = true ↔
      (prods.filter (fun s => decide (s.sku = code))) = []
      ∨ ∃ s1 ∈ prods, s1.sku = code
        ∧ (s1.inventory_quantity = some 0 ∨ s1.inventory_quantity = none) := by
  unfold ownQtyZeroOrNull
  simp only [Bool.or_eq_true, List.isEmpty_iff, List.any_eq_true,
    List.mem_filter, decide_eq_true_eq, sqlZeroOrNull_iff]
  constructor
  · rintro (h | ⟨s1, ⟨hs1, hsku⟩, hq⟩)
    · exact Or.inl h
    · exact Or.inr ⟨s1, hs1, hsku, hq⟩
  · rintro (h | ⟨s1, hs1, hsku, hq⟩)
    · exact Or.inl h
    · exact Or.inr ⟨s1, ⟨hs1, hsku⟩, hq⟩

/-- The sibling-quantity condition of the proximity heuristic, spelled in
propositions. -/
theorem sqlWithinFive_iff (oq : ℚ) (sq : Option ℚ) :
    sqlWithinFive oq sq = true ↔
      ∃ q, sq = some q ∧ 0 < q ∧ |oq - q| ≤ 5 := by
  cases sq with
  | none => simp [sqlWithinFive]
  | some q =>
      unfold sqlWithinFive
      rw [Bool.and_eq_true, decide_eq_true_eq]
      rw [absSubLeFrac_iff oq q 5 1 (by norm_num)]
      have hc : ((5 : ℤ) : ℚ) / ((1 : ℤ) : ℚ) = 5 := by norm_num
      rw [hc]
      constructor
      · rintro ⟨h1, h2⟩
        exact ⟨q, rfl, h1, h2⟩
      · rintro ⟨q', hq', h1, h2⟩
        rw [Option.some.injEq] at hq'
        rw [hq']
        exact ⟨h1, h2⟩

/-- The reciprocal detector's condition, spelled in propositions. -/
theorem skuMismatchCond_iff (o1 o2 : OdooStockRec) (si1 si2 : ShopInvRec) :
    skuMismatchCond o1 o2 si1 si2 = true ↔
      plantBaseOf o1.default_code = plantBaseOf o2.default_code
      ∧ sizeSuffixOf o1.default_code ≠ sizeSuffixOf o2.default_code
      ∧ o1.default_code = si1.sku ∧ o2.default_code = si2.sku
      ∧ 0 < o1.quantity ∧ o2.quantity = 0
      ∧ si1.on_hand = some 0
      ∧ (∃ q, si2.on_hand = some q ∧ 0 < q) := by
  unfold skuMismatchCond
  simp only [Bool.and_eq_true, Bool.not_eq_true', decide_eq_false_iff_not,
    decide_eq_true_eq, sqlPos_iff]
  tauto

/-- The proximity heuristic's condition, spelled in propositions. -/
theorem proximityCond_iff (prods : List ShopProd) (o : OdooStockRec)
    (s2 : ShopProd) :
    proximityCond prods o s2 = true ↔
      plantBaseOf o.default_code ≠ ""
      ∧ likeDashAny (plantBaseOf o.default_code) s2.sku = true
      ∧ s2.sku ≠ o.default_code
      ∧ 0 < o.quantity
      ∧ ((prods.filter (fun s => decide (s.sku = o.default_code))) = []
          ∨ ∃ s1 ∈ prods, s1.sku = o.default_code
            ∧ (s1.inventory_quantity = some 0 ∨ s1.inventory_quantity = none))
      ∧ ∃ q, s2.inventory_quantity = some q ∧ 0 < q ∧ |o.quantity - q| ≤ 5 := by
  unfold proximityCond
  simp only [Bool.and_eq_true, Bool.not_eq_true', decide_eq_false_iff_not,
    decide_eq_true_eq, ownQtyZeroOrNull_iff, sqlWithinFive_iff, and_assoc]

/-- C7 counterexample: with Odoo stock "PLT-1G" at -3 (non-zero) and
"PLT-3G" at 0, and Shopify inventory "PLT-1G" at 0 and "PLT-3G" at 2, both
halves of the reciprocal signature hold under a literal reading of
"non-zero" (side-1 A zero while side-2 A non-zero, side-1 B non-zero while
side-2 B zero), yet the detector flags nothing: the code demands the
side-2 quantity for A be strictly positive, not merely non-zero. -/
theorem reciprocal_detector_nonzero_not_flagged :
    ((-3 : ℚ) ≠ 0)
    ∧ plantBaseOf "PLT-1G" = plantBaseOf "PLT-3G"
    ∧ sizeSuffixOf "PLT-1G" ≠ sizeSuffixOf "PLT-3G"
    ∧ sku_mismatches [⟨"PLT-1G", -3⟩, ⟨"PLT-3G", 0⟩]
        [⟨"PLT-1G", some 0⟩, ⟨"PLT-3G", some 2⟩] = [] := by decide

/-- C7 amended: the reciprocal detector flags a candidate quadruple exactly
when the two stock variants share a plant prefix with differing size
suffixes, each is joined to the Shopify inventory row of the identical
sku, and the quantities show the reciprocal signature with the code's
strict bounds: Shopify on-hand of A exactly zero while Odoo quantity of A
is strictly positive, and Shopify on-hand of B strictly positive while
Odoo quantity of B is exactly zero.  Both halves are required for the
flag. -/
theorem reciprocal_detector_signature (ost : List OdooStockRec)
    (sinv : List ShopInvRec) (o1 o2 : OdooStockRec) (si1 si2 : ShopInvRec) :
    (o1, o2, si1, si2) ∈ sku_mismatches ost sinv ↔
      o1 ∈ ost ∧ o2 ∈ ost ∧ si1 ∈ sinv ∧ si2 ∈ sinv
      ∧ plantBaseOf o1.default_code = plantBaseOf o2.default_code
      ∧ sizeSuffixOf o1.default_code ≠ sizeSuffixOf o2.default_code
      ∧ o1.default_code = si1.sku ∧ o2.default_code = si2.sku
      ∧ 0 < o1.quantity ∧ o2.quantity = 0
      ∧ si1.on_hand = some 0
      ∧ (∃ q, si2.on_hand = some q ∧ 0 < q) := by
  unfold sku_mismatches
  simp only [List.mem_flatMap]
  constructor
  · rintro ⟨a1, ha1, a2, ha2, b1, hb1, b2, hb2, hin⟩
    rw [mem_ite_singleton] at hin
    obtain ⟨hc, heq⟩ := hin
    simp only [Prod.mk.injEq] at heq
    obtain ⟨rfl, rfl, rfl, rfl⟩ := heq
    exact ⟨ha1, ha2, hb1, hb2, (skuMismatchCond_iff o1 o2 si1 si2).mp hc⟩
  · rintro ⟨h1, h2, h3, h4, hrest⟩
    refine ⟨o1, h1, o2, h2, si1, h3, si2, h4, ?_⟩
    rw [mem_ite_singleton]
    exact ⟨(skuMismatchCond_iff o1 o2 si1 si2).mpr hrest, rfl⟩

/-- C8 counterexample: the item "PLT-1G" has quantity 0 on the storefront
side and the non-zero quantity -3 on the ERP side, and its same-prefix
sibling "PLT-3G" has the non-zero storefront quantity 2 within 5 units of
-3, yet the proximity heuristic surfaces nothing: the code demands the
item's ERP quantity and the sibling's quantity be strictly positive, not
merely non-zero. -/
theorem proximity_detector_nonzero_not_flagged :
    ((-3 : ℚ) ≠ 0) ∧ ((2 : ℚ) ≠ 0)
    ∧ plantBaseOf "PLT-3G" = plantBaseOf "PLT-1G"
    ∧ sizeSuffixOf "PLT-3G" ≠ sizeSuffixOf "PLT-1G"
    ∧ absSubLeFrac (-3 : ℚ) 2 5 1 = true
    ∧ potential_size_mismatches [⟨"PLT-1G", -3⟩]
        [⟨"PLT-1G", some "1G", some 0⟩, ⟨"PLT-3G", some "3G", some 2⟩]
      = [] := by decide

/-- C8 amended: the proximity heuristic surfaces a note exactly when the
item has a non-empty plant prefix, strictly positive ERP quantity, zero or
null storefront quantity, and some storefront sibling whose sku starts
(case-insensitively) with the prefix and a dash, differs from the item's
sku, and has a strictly positive quantity within 5 units of the item's ERP
quantity; the note is an advisory annotation that carries both sides'
quantities verbatim and never alters either side's data. -/
theorem proximity_detector_signature (ost : List OdooStockRec)
    (prods : List ShopProd) (note : MismatchNote) :
    (note ∈ potential_size_mismatches ost prods ↔
      ∃ o ∈ ost, ∃ s2 ∈ prods, note = mkNote o s2
        ∧ plantBaseOf o.default_code ≠ ""
        ∧ likeDashAny (plantBaseOf o.default_code) s2.sku = true
        ∧ s2.sku ≠ o.default_code
        ∧ 0 < o.quantity
        ∧ ((prods.filter (fun s => decide (s.sku = o.default_code))) = []
            ∨ ∃ s1 ∈ prods, s1.sku = o.default_code
              ∧ (s1.inventory_quantity = some 0 ∨ s1.inventory_quantity = none))
        ∧ ∃ q, s2.inventory_quantity = some q ∧ 0 < q ∧ |o.quantity - q| ≤ 5)
    ∧ (∀ o : OdooStockRec, ∀ s2 : ShopProd,
        (mkNote o s2).odoo_qty = o.quantity
        ∧ (mkNote o s2).shopify_qty = s2.inventory_quantity) := by
  constructor
  · unfold potential_size_mismatches
    rw [List.mem_dedup]
    simp only [List.mem_flatMap]
    constructor
    · rintro ⟨o, ho, s2, hs2, hin⟩
      rw [mem_ite_singleton] at hin
      obtain ⟨hc, rfl⟩ := hin
      exact ⟨o, ho, s2, hs2, rfl, (proximityCond_iff prods o s2).mp hc⟩
    · rintro ⟨o, ho, s2, hs2, rfl, hc⟩
      exact ⟨o, ho, s2, hs2, (mem_ite_singleton _ _ _).mpr
        ⟨(proximityCond_iff prods o s2).mpr hc, rfl⟩⟩
  · intro o s2
    exact ⟨rfl, rfl⟩
